import Mathlib

/-!
Verification development for the Hexagon-Game repository.

Shallow embedding of the core components described in the spec:
hex coordinate math, the shared-asset registry of `HexagonTile`
(static `loadedModels` / `modelLoadPromises` maps), the
descend/ascend navigation flow (`MapRenderer.handleDescend`,
`MapRenderer.handleAscend`, `ThreeJSSceneManager.handleDescend`,
`ThreeJSSceneManager.handleAscend`, `HexagonalMap.handleDescend`),
the camera wheel-zoom handler, and the click / nearest-tile picking
logic.  Asynchronous behaviour (promise resolution, gsap timelines)
is modelled by explicit events on a state record: the synchronous
part of a handler runs at its event, and the deferred completion
callbacks run at a separate completion event, mirroring the
single-threaded cooperative scheduling of the source.
-/

namespace HexGame

/-- Axial hex coordinate, the `{q, r}` pair used throughout the source. -/
structure Coord where
  q : Int
  r : Int
deriving DecidableEq, Repr

/-- The fixed movement range constant: `MapRenderer.moveToTile` compares the
hex distance against the literal `4`. -/
def movementRange : Int := 4

/-- Hex distance as computed inline in `MapRenderer.moveToTile`:
`Math.max(|tile.q - p.q|, |tile.r - p.r|, |tile.q + tile.r - p.q - p.r|)`. -/
def hexDistance (p t : Coord) : Int :=
  max (max |t.q - p.q| |t.r - p.r|) |t.q + t.r - p.q - p.r|

/-- The body of `MapRenderer.moveToTile` for a present player: if the distance
is strictly below `movementRange` the move request `onMovePlayer(tile.q, tile.r)`
fires (modelled as `some target`); otherwise only a log message is emitted
(modelled as `none`). -/
def moveToTile (playerCoords target : Coord) : Option Coord :=
  if hexDistance playerCoords target < movementRange then some target else none

/-- Resulting player coordinates after a `moveToTile` request: the scene
manager `movePlayer` callback ends in `player.moveTo(targetQ, targetR, ...)`,
which overwrites the stored `q`, `r`; a rejected request leaves them as before. -/
def applyMove (playerCoords target : Coord) : Coord :=
  match moveToTile playerCoords target with
  | some c => c
  | none => playerCoords

/-- A 3D vector with exact rational components, standing in for
`THREE.Vector3` in the camera and picking logic. -/
structure Vec3 where
  x : ℚ
  y : ℚ
  z : ℚ
deriving DecidableEq, Repr

/-- The `updateCameraPosition` closure of `ThreeJSSceneManager`: clamps the
lateral coordinate to `[-mapSize, mapSize]` and the depth coordinate to
`[0, 3 * mapSize]` where `mapSize = size * tileSize`; the height `y` is
not touched. -/
def updateCameraPosition (size tileSize : ℚ) (p : Vec3) : Vec3 :=
  let mapSize := size * tileSize
  ⟨max (-mapSize) (min mapSize p.x), p.y, max 0 (min (mapSize * 3) p.z)⟩

/-- The candidate position computed by `ThreeJSSceneManager.handleWheel`:
`cameraPositionRef.current.clone().addScaledVector(forward, zoomDelta)` with
`forward = normalize(0, -1, -1) = (0, -1/sqrt 2, -1/sqrt 2)`.  The scalar
`step` below stands for `zoomDelta / sqrt 2 = event.deltaY * 0.1 / sqrt 2`,
the common displacement of the `y` and `z` components; the map from the
wheel delta to `step` is a strictly monotone bijection of the reals, so
quantifying over `step` covers exactly the wheel requests. -/
def wheelNewPosition (pos : Vec3) (step : ℚ) : Vec3 :=
  ⟨pos.x, pos.y - step, pos.z - step⟩

/-- The `handleWheel` closure of `ThreeJSSceneManager`: the candidate position
is accepted only if its height `distanceToGround = newPosition.y` satisfies
`distanceToGround > tileSize * 2 && distanceToGround < size * tileSize * 4`;
afterwards `updateCameraPosition()` runs unconditionally. -/
def handleWheel (size tileSize : ℚ) (pos : Vec3) (step : ℚ) : Vec3 :=
  let newPosition := wheelNewPosition pos step
  let distanceToGround := newPosition.y
  updateCameraPosition size tileSize
    (if tileSize * 2 < distanceToGround ∧ distanceToGround < size * tileSize * 4 then
      newPosition
    else
      pos)

/-! ### Association-list helpers

The static maps `HexagonTile.loadedModels` and `HexagonTile.modelLoadPromises`
are plain JS objects keyed by the model name; they are modelled as
association lists with the usual lookup / overwrite / delete operations. -/

/-- Lookup in an association list, first binding wins. -/
def alookup {α β : Type} [DecidableEq α] (k : α) : List (α × β) → Option β
  | [] => none
  | (k2, v) :: rest => if k = k2 then some v else alookup k rest

/-- Overwrite (or append) a binding in an association list. -/
def aset {α β : Type} [DecidableEq α] (k : α) (v : β) : List (α × β) → List (α × β)
  | [] => [(k, v)]
  | (k2, v2) :: rest => if k = k2 then (k, v) :: rest else (k2, v2) :: aset k v rest

/-- Delete a binding from an association list (the JS `delete` operator). -/
def aerase {α β : Type} [DecidableEq α] (k : α) : List (α × β) → List (α × β)
  | [] => []
  | (k2, v2) :: rest => if k = k2 then rest else (k2, v2) :: aerase k rest

/-! ### Asset registry (static state of `HexagonTile`) -/

/-- State of one entry of `HexagonTile.modelLoadPromises`.  A pending promise
records the ids of the tiles whose `addGLTFModel` is awaiting it, in join
order; once settled it stays in the map (the source never deletes settled
promises). -/
inductive PromState where
  | pending (waiters : List Nat)
  | resolvedP
  | rejectedP
deriving DecidableEq, Repr

/-- The per-tile fields relevant to the asset lifecycle: the requested
`modelName`, whether `modelInstance` is currently attached (`this.add`),
and whether `dispose()` has been called on the tile. -/
structure TileState where
  modelName : String
  attached : Bool
  disposed : Bool
deriving DecidableEq, Repr

/-- The static registry state of `HexagonTile` plus the tiles using it.
`loaded` is `loadedModels` (refCount per model name), `promises` is
`modelLoadPromises`, `freed` records the model names whose geometry and
materials were traversed and disposed, and `loadsStarted` counts the calls
of `loader.load` (one per newly created promise). -/
structure RegState where
  loaded : List (String × Int)
  promises : List (String × PromState)
  freed : List String
  loadsStarted : Nat
  tiles : List (Nat × TileState)
deriving DecidableEq, Repr

/-- Initial registry state: empty static maps, no tiles. -/
def emptyReg : RegState := ⟨[], [], [], 0, []⟩

/-- The tail of `HexagonTile.addGLTFModel` after its `await` succeeds:
`this.modelInstance = model.clone(); ...; this.add(this.modelInstance)`.
The source performs no check of whether the tile was disposed in the
meantime, so the attach is unconditional. -/
def attachTile (tid : Nat) (s : RegState) : RegState :=
  match alookup tid s.tiles with
  | none => s
  | some t => { s with tiles := aset tid { t with attached := true } s.tiles }

/-- Construction of a `HexagonTile` (constructor calling `addGLTFModel`,
which awaits `HexagonTile.loadGLTFModel(modelName)`).  Branches of
`loadGLTFModel`:
if the model is cached in `loadedModels` the refCount is incremented and the
resolved promise attaches;
otherwise, if a promise for the name already exists, it is joined (a still
pending promise gains a waiter, a stale resolved promise attaches without
touching any refCount, a stale rejected promise makes the `catch` in
`addGLTFModel` log the error and attach nothing);
otherwise a new promise is created and `loader.load` starts. -/
def constructTile (tid : Nat) (m : String) (s : RegState) : RegState :=
  let s1 : RegState := { s with tiles := aset tid ⟨m, false, false⟩ s.tiles }
  match alookup m s1.loaded with
  | some rc =>
      attachTile tid { s1 with loaded := aset m (rc + 1) s1.loaded }
  | none =>
      match alookup m s1.promises with
      | some (PromState.pending ws) =>
          { s1 with promises := aset m (PromState.pending (ws ++ [tid])) s1.promises }
      | some PromState.resolvedP => attachTile tid s1
      | some PromState.rejectedP => s1
      | none =>
          { s1 with promises := aset m (PromState.pending [tid]) s1.promises,
                    loadsStarted := s1.loadsStarted + 1 }

/-- Success callback of `loader.load` for model `m`:
`loadedModels[m] = { model: gltf.scene, refCount: 1 }` and the promise
resolves, running the awaiting `addGLTFModel` continuations (each attaches
its clone, in join order, with no disposal check). -/
def resolveLoad (m : String) (s : RegState) : RegState :=
  match alookup m s.promises with
  | some (PromState.pending ws) =>
      let s1 : RegState :=
        { s with loaded := aset m 1 s.loaded,
                 promises := aset m PromState.resolvedP s.promises }
      ws.foldl (fun acc tid => attachTile tid acc) s1
  | _ => s

/-- Error callback of `loader.load` for model `m`: the promise rejects; every
awaiting `addGLTFModel` lands in its `catch`, logs, and attaches nothing.
The rejected promise is left in `modelLoadPromises`. -/
def failLoad (m : String) (s : RegState) : RegState :=
  match alookup m s.promises with
  | some (PromState.pending _) =>
      { s with promises := aset m PromState.rejectedP s.promises }
  | _ => s

/-- `HexagonTile.dispose()`: removes `modelInstance` if attached, then, if the
model name is present in `loadedModels`, decrements its refCount and, exactly
when the count hits `0`, traverses the model disposing geometry and materials
(recorded in `freed`) and deletes the entry.  A pending or settled promise in
`modelLoadPromises` is not touched. -/
def disposeTile (tid : Nat) (s : RegState) : RegState :=
  match alookup tid s.tiles with
  | none => s
  | some t =>
    let s1 : RegState :=
      { s with tiles := aset tid { t with attached := false, disposed := true } s.tiles }
    match alookup t.modelName s1.loaded with
    | none => s1
    | some rc =>
        if rc - 1 = 0 then
          { s1 with loaded := aerase t.modelName s1.loaded,
                    freed := t.modelName :: s1.freed }
        else
          { s1 with loaded := aset t.modelName (rc - 1) s1.loaded }

/-- Events of the asset-registry model: tile construction (the synchronous
part of an acquisition), settlement of an in-flight load, and disposal. -/
inductive RegEvent where
  | construct (tid : Nat) (m : String)
  | resolve (m : String)
  | fail (m : String)
  | dispose (tid : Nat)
deriving DecidableEq, Repr

/-- Single step of the registry model. -/
def stepReg (s : RegState) : RegEvent → RegState
  | RegEvent.construct tid m => constructTile tid m s
  | RegEvent.resolve m => resolveLoad m s
  | RegEvent.fail m => failLoad m s
  | RegEvent.dispose tid => disposeTile tid s

/-- Run a sequence of registry events from the empty static state. -/
def runReg (evs : List RegEvent) : RegState :=
  evs.foldl stepReg emptyReg

/-! ### Level navigation (`MapRenderer` + `ThreeJSSceneManager` + `HexagonalMap`)

A request handler runs synchronously when its button is pressed: it may
start a gsap timeline, which is queued in `pendTrans`.  The deferred
`.call(...)` steps of a timeline (dispose the tiles, update the map level,
reposition camera and player) run at a later `completeTransition` event,
reflecting that the fades and camera tweens take about a second of frame
time before the callbacks fire. -/

/-- The tile fields read by the navigation handlers: its axial coordinate
and its `mapLevel` field. -/
structure NavTile where
  coord : Coord
  mapLevel : Int
deriving DecidableEq, Repr

/-- The `newMapData` record built by `MapRenderer.handleDescend`. -/
structure NewMapDataD where
  q : Int
  r : Int
  mapLevel : Int
  parentTile : Option Coord
deriving DecidableEq, Repr

/-- The `newMapData` record built by `MapRenderer.handleAscend`. -/
structure NewMapDataA where
  mapLevel : Int
  parentTile : Option Coord
deriving DecidableEq, Repr

/-- A started gsap transition timeline whose completion callbacks have not
run yet. -/
inductive Transition where
  | descend (nmd : NewMapDataD)
  | ascend (nmd : NewMapDataA)
deriving DecidableEq, Repr

/-- Combined sequential state of `HexagonalMap` (the stored `mapLevel`),
`ThreeJSSceneManager` (current tiles, player, camera availability) and
`MapRenderer` (focused tile, info bar).  `pendTrans` lists the started
but not yet completed transition timelines in start order, and
`transitionsStarted` counts every timeline ever started. -/
structure WorldState where
  mapLevel : Int
  tiles : List NavTile
  focusedTile : Option NavTile
  infoBarOpen : Bool
  playerCoord : Coord
  cameraReady : Bool
  pendTrans : List Transition
  transitionsStarted : Nat
deriving DecidableEq, Repr

/-- The guarded body of `MapRenderer.handleDescend`: with a focused tile and
`mapLevel > 1`, the focused coordinate is looked up in `tiles`; on success
`newMapLevel = Math.max(selectedTile.mapLevel - 1, 1)` and
`newMapData = { q: 0, r: 0, mapLevel: newMapLevel,
parentTile: { q: selectedTile.q, r: selectedTile.r } }` is passed to
`onDescend`. -/
def descendData (w : WorldState) : Option NewMapDataD :=
  match w.focusedTile with
  | none => none
  | some ft =>
    if 1 < w.mapLevel then
      match w.tiles.find? (fun t => decide (t.coord = ft.coord)) with
      | some sel => some ⟨0, 0, max (sel.mapLevel - 1) 1, some sel.coord⟩
      | none => none
    else none

/-- The synchronous part of `ThreeJSSceneManager.handleDescend`: with the fade
overlay and camera available, the tile matching `newMapData.parentTile` is
looked up in the current tiles; on success a gsap timeline starts (camera
tween plus overlay fade, whose completion callbacks dispose the tiles and
apply the new map data); on failure only an error is logged. -/
def sceneStartDescend (w : WorldState) (nmd : NewMapDataD) : WorldState :=
  if w.cameraReady then
    match w.tiles.find? (fun t => decide (some t.coord = nmd.parentTile)) with
    | some _ =>
        { w with pendTrans := w.pendTrans ++ [Transition.descend nmd],
                 transitionsStarted := w.transitionsStarted + 1 }
    | none => w
  else w

/-- `MapRenderer.handleDescend` as pressed: the guarded body may call
`onDescend` (starting the scene timeline), then `setFocusedTile(null)` and
`setInfoBarOpen(false)` run unconditionally. -/
def requestDescend (w : WorldState) : WorldState :=
  let w1 :=
    match descendData w with
    | some nmd => sceneStartDescend w nmd
    | none => w
  { w1 with focusedTile := none, infoBarOpen := false }

/-- The guarded body of `MapRenderer.handleAscend`: with a focused tile and
`mapLevel < 4`, the focused coordinate is looked up in `tiles`; on success
`newMapLevel = Math.min(mapLevel + 1, 4)` and
`newMapData = { mapLevel: newMapLevel,
parentTile: { q: selectedTile.q, r: selectedTile.r } }` is passed to
`onAscend`.  Unlike the descend handler it does not clear the focused tile. -/
def ascendData (w : WorldState) : Option NewMapDataA :=
  match w.focusedTile with
  | none => none
  | some ft =>
    if w.mapLevel < 4 then
      match w.tiles.find? (fun t => decide (t.coord = ft.coord)) with
      | some sel => some ⟨min (w.mapLevel + 1) 4, some sel.coord⟩
      | none => none
    else none

/-- The synchronous part of `ThreeJSSceneManager.handleAscend`: with the fade
overlay and camera available it always starts its gsap timeline (there is no
lookup gate on the parent tile; a missing `parentTile` merely defaults the
computed positions to the origin). -/
def sceneStartAscend (w : WorldState) (nmd : NewMapDataA) : WorldState :=
  if w.cameraReady then
    { w with pendTrans := w.pendTrans ++ [Transition.ascend nmd],
             transitionsStarted := w.transitionsStarted + 1 }
  else w

/-- `MapRenderer.handleAscend` as pressed: the guarded body may call
`onAscend`, then only `setInfoBarOpen(false)` runs unconditionally; the
focused tile is left as it was. -/
def requestAscend (w : WorldState) : WorldState :=
  let w1 :=
    match ascendData w with
    | some nmd => sceneStartAscend w nmd
    | none => w
  { w1 with infoBarOpen := false }

/-- Completion callbacks of the oldest started timeline.
For a descend (`ThreeJSSceneManager.handleDescend` `.call` step):
`disposeTiles()` empties the current tiles, `onDescend(newMapData)` reaches
`HexagonalMap.handleDescend` which runs `setMapLevel(newMapData.mapLevel)`,
the camera resets to the default framing and the player moves to the origin.
For an ascend (`ThreeJSSceneManager.handleAscend` `.call` step):
`disposeTiles()` empties the tiles, the camera refocuses on the parent
coordinate, and the player moves to `newMapData.parentTile` when present.
Modelled from the spec: the `HexagonalMap` handler that stores
`newMapData.mapLevel` on ascend is absent from the sources (only the descend
wiring `onDescend = handleDescend` with `setMapLevel` survives); following
the spec, the ascend completion updates the stored level to the
`newMapData.mapLevel` computed by `MapRenderer.handleAscend`. -/
def completeTransition (w : WorldState) : WorldState :=
  match w.pendTrans with
  | [] => w
  | Transition.descend nmd :: rest =>
      { w with tiles := [], mapLevel := nmd.mapLevel,
               playerCoord := ⟨0, 0⟩, pendTrans := rest }
  | Transition.ascend nmd :: rest =>
      { w with tiles := [], mapLevel := nmd.mapLevel,
               playerCoord := match nmd.parentTile with
                 | some pt => pt
                 | none => w.playerCoord,
               pendTrans := rest }

/-! ### Click handling and tile picking (`MapRenderer.handleClick`) -/

/-- The tile fields read by the picking logic: coordinate, level and the
world position set in the `HexagonTile` constructor. -/
structure TileR where
  coord : Coord
  mapLevel : Int
  pos : Vec3
deriving DecidableEq, Repr

/-- Squared euclidean distance.  `point.distanceTo(tile.position)` is the
square root of this; the square root is strictly monotone, so the running
strict comparisons of `findNearestTile` select the same tile either way. -/
def distanceSq (a b : Vec3) : ℚ :=
  (b.x - a.x) ^ 2 + (b.y - a.y) ^ 2 + (b.z - a.z) ^ 2

/-- The `forEach` loop of `MapRenderer.findNearestTile`: the accumulator
holds the best tile so far with its distance (`none` plays the role of the
initial `minDistance = Infinity`, which every first comparison beats). -/
def findNearestLoop (point : Vec3) : List TileR → Option (TileR × ℚ) → Option (TileR × ℚ)
  | [], best => best
  | t :: rest, best =>
    let d := distanceSq point t.pos
    match best with
    | none => findNearestLoop point rest (some (t, d))
    | some (b, bd) =>
        findNearestLoop point rest (if d < bd then some (t, d) else some (b, bd))

/-- `MapRenderer.findNearestTile`: `null` for a missing or empty tile list,
otherwise the tile nearest to the intersection point (first wins on ties,
as in the source where only a strictly smaller distance replaces the best). -/
def findNearestTile (point : Vec3) (tiles : List TileR) : Option TileR :=
  if tiles = [] then none
  else (findNearestLoop point tiles none).map (fun p => p.1)

/-- The `MapRenderer` state read and written by `handleClick`. -/
structure ClickState where
  tiles : List TileR
  focusedTile : Option TileR
  isDragging : Bool
  cameraReady : Bool
  infoBarOpen : Bool
  dialogOpen : Bool
  playerCoord : Coord
deriving DecidableEq, Repr

/-- `MapRenderer.handleClick`: returns early while dragging, without a
camera, or with no tiles; otherwise intersects the click ray with the ground
plane (the intersection point is the argument) and picks the nearest tile.
A picked tile is moved to (when in range) and focused (`focusOnTile` sets
the focus border, the focused tile and opens the info bar; a repeated click
on the already focused tile opens the dialog).  Only when `findNearestTile`
returns `null` does the miss branch clear the focus state. -/
def handleClick (s : ClickState) (intersectionPoint : Vec3) : ClickState :=
  if s.isDragging = true ∨ s.cameraReady = false ∨ s.tiles = [] then s
  else
    match findNearestTile intersectionPoint s.tiles with
    | some clickedTile =>
        { s with playerCoord := applyMove s.playerCoord clickedTile.coord,
                 focusedTile := some clickedTile,
                 infoBarOpen := true,
                 dialogOpen := if s.focusedTile = some clickedTile then true else s.dialogOpen }
    | none =>
        match s.focusedTile with
        | some _ => { s with focusedTile := none, infoBarOpen := false, dialogOpen := false }
        | none => s

/-! ### Concrete states used by the witnesses and counterexamples -/

/-- Registry state after a single acquisition of model `m` with the load
still in flight. -/
def regOneAcquire : RegState := runReg [RegEvent.construct 1 "m"]

/-- World at level 2 with one tile at `(1, 0)` which is focused, camera and
overlay available, no transition in flight. -/
def wC2 : WorldState :=
  { mapLevel := 2, tiles := [⟨⟨1, 0⟩, 2⟩], focusedTile := some ⟨⟨1, 0⟩, 2⟩,
    infoBarOpen := true, playerCoord := ⟨0, 0⟩, cameraReady := true,
    pendTrans := [], transitionsStarted := 0 }

/-- World at level 3 with one tile at `(2, 1)` which is focused. -/
def wC5 : WorldState :=
  { mapLevel := 3, tiles := [⟨⟨2, 1⟩, 3⟩], focusedTile := some ⟨⟨2, 1⟩, 3⟩,
    infoBarOpen := true, playerCoord := ⟨4, 4⟩, cameraReady := true,
    pendTrans := [], transitionsStarted := 0 }

/-- World at level 2 with one tile at `(1, 0)` which is focused and a player
away from it. -/
def wC6 : WorldState :=
  { mapLevel := 2, tiles := [⟨⟨1, 0⟩, 2⟩], focusedTile := some ⟨⟨1, 0⟩, 2⟩,
    infoBarOpen := true, playerCoord := ⟨5, 5⟩, cameraReady := true,
    pendTrans := [], transitionsStarted := 0 }

/-- World at the maximum level 4 with a focused tile present. -/
def wC7 : WorldState :=
  { mapLevel := 4, tiles := [⟨⟨0, 0⟩, 4⟩], focusedTile := some ⟨⟨0, 0⟩, 4⟩,
    infoBarOpen := true, playerCoord := ⟨0, 0⟩, cameraReady := true,
    pendTrans := [], transitionsStarted := 0 }

/-- A tile at the origin of a level-2 map. -/
def tC10 : TileR := ⟨⟨0, 0⟩, 2, ⟨0, 0, 0⟩⟩

/-- Click state with no tiles present but a leftover focused tile. -/
def sC10 : ClickState :=
  { tiles := [], focusedTile := some tC10, isDragging := false,
    cameraReady := true, infoBarOpen := true, dialogOpen := false,
    playerCoord := ⟨0, 0⟩ }

/-- A single tile for the pick model. -/
def tW10 : TileR := ⟨⟨1, 0⟩, 2, ⟨1, 0, 1⟩⟩

/-- Click state with one tile, nothing focused, not dragging. -/
def sW10 : ClickState :=
  { tiles := [tW10], focusedTile := none, isDragging := false,
    cameraReady := true, infoBarOpen := false, dialogOpen := false,
    playerCoord := ⟨0, 0⟩ }

/-! ### Helper lemmas -/

/-- Looking up a key just written into an association list yields the
written value. -/
theorem alookup_aset_self {α β : Type} [DecidableEq α] (k : α) (v : β) :
    ∀ l : List (α × β), alookup k (aset k v l) = some v := by
  intro l
  induction l with
  | nil => simp [aset, alookup]
  | cons hd tl ih =>
      obtain ⟨k2, v2⟩ := hd
      by_cases h : k = k2
      · simp [aset, alookup, h]
      · simp [aset, alookup, h, ih]

/-- The descend handler always ends with `setFocusedTile(null)`. -/
theorem requestDescend_focusedTile (w : WorldState) :
    (requestDescend w).focusedTile = none := by
  unfold requestDescend
  cases descendData w <;> rfl

/-- The descend handler always ends with `setInfoBarOpen(false)`. -/
theorem requestDescend_infoBarOpen (w : WorldState) :
    (requestDescend w).infoBarOpen = false := by
  unfold requestDescend
  cases descendData w <;> rfl

/-- With no focused tile the descend handler leaves the state unchanged up
to the (already cleared) focus and info-bar fields. -/
theorem requestDescend_of_none (w : WorldState)
    (hf : w.focusedTile = none) (hb : w.infoBarOpen = false) :
    requestDescend w = w := by
  cases w with
  | mk lvl tiles ft ib pc cr pend ts =>
      simp only at hf hb
      subst hf; subst hb
      simp [requestDescend, descendData]

/-- The loop of `findNearestTile` never discards a best candidate. -/
theorem findNearestLoop_isSome (point : Vec3) :
    ∀ (ts : List TileR) (b : TileR × ℚ),
      (findNearestLoop point ts (some b)).isSome = true := by
  intro ts
  induction ts with
  | nil => intro b; rfl
  | cons t rest ih =>
      intro b
      unfold findNearestLoop
      by_cases h : distanceSq point t.pos < b.2
      · simpa [h] using ih (t, distanceSq point t.pos)
      · simpa [h] using ih b

/-- `findNearestTile` returns a tile whenever the list is nonempty: there is
no distance threshold, hence no possible pick miss. -/
theorem findNearestTile_isSome (point : Vec3) (tiles : List TileR)
    (h : tiles ≠ []) : (findNearestTile point tiles).isSome = true := by
  unfold findNearestTile
  rw [if_neg h]
  cases tiles with
  | nil => exact absurd rfl h
  | cons t rest =>
      have hs := findNearestLoop_isSome point rest (t, distanceSq point t.pos)
      obtain ⟨p, hp⟩ := Option.isSome_iff_exists.mp hs
      unfold findNearestLoop
      simp only [hp, Option.map_some]
      rfl

/-! ### Claim theorems -/

/-- C8: for every current player coordinate and requested target coordinate,
the move request fires if and only if the hex distance
`max(|dq|, |dr|, |dq + dr|)` is strictly below the fixed `movementRange`
constant; otherwise the request is silently dropped and the player
coordinates are unchanged. -/
theorem c8_movement_gated_by_hexDistance (p t : Coord) :
    (moveToTile p t = some t ↔ hexDistance p t < movementRange) ∧
    (movementRange ≤ hexDistance p t → applyMove p t = p) ∧
    (hexDistance p t < movementRange → applyMove p t = t) := by
  unfold applyMove moveToTile
  by_cases h : hexDistance p t < movementRange
  · exact ⟨by simp [h], fun hge => absurd h (by omega), fun _ => by simp [h]⟩
  · exact ⟨by simp [h], fun _ => by simp [h], fun hlt => absurd hlt h⟩

/-- C9: a wheel request whose candidate position has a height outside the
open interval `(2 * tileSize, 4 * size * tileSize)` leaves the camera
position entirely unchanged (for any position already inside the pan
bounds, which the controller maintains); a request whose candidate height
is strictly inside the interval moves the camera to the candidate height. -/
theorem c9_wheel_zoom_height_gate (size tileSize : ℚ) (pos : Vec3) (step : ℚ)
    (hx1 : -(size * tileSize) ≤ pos.x) (hx2 : pos.x ≤ size * tileSize)
    (hz1 : 0 ≤ pos.z) (hz2 : pos.z ≤ size * tileSize * 3) :
    (¬(tileSize * 2 < pos.y - step ∧ pos.y - step < size * tileSize * 4) →
        handleWheel size tileSize pos step = pos) ∧
    ((tileSize * 2 < pos.y - step ∧ pos.y - step < size * tileSize * 4) →
        (handleWheel size tileSize pos step).y = pos.y - step) := by
  simp only [handleWheel, wheelNewPosition, updateCameraPosition]
  constructor
  · intro h
    rw [if_neg h]
    cases pos with
    | mk x y z =>
        simp only at hx1 hx2 hz1 hz2 ⊢
        rw [min_eq_right hx2, max_eq_right hx1, min_eq_right hz2, max_eq_right hz1]
  · intro h
    rw [if_pos h]

/-- C9 witness: with `size = tileSize = 1` and a camera at height 5, a
zero-delta wheel request has resulting height 5, outside `(2, 4)`, and the
camera stays exactly where it was. -/
theorem c9_wheel_zoom_height_gate_witness :
    handleWheel 1 1 ⟨0, 5, 1⟩ 0 = ⟨0, 5, 1⟩ :=
  (c9_wheel_zoom_height_gate 1 1 ⟨0, 5, 1⟩ 0 (by norm_num) (by norm_num)
    (by norm_num) (by norm_num)).1 (by norm_num)

/-- C1: two acquisitions of model `m` issued before the load resolves start
exactly one load, but when the load completes the registry entry holds
`refCount = 1`, not `2` (the joining acquisition never increments), and
already the first release drops the count to `0`, evicting the entry and
freeing its resources while the second tile still has the model attached. -/
theorem c1_concurrent_acquires_leave_refcount_one :
    (runReg [RegEvent.construct 1 "m", RegEvent.construct 2 "m",
        RegEvent.resolve "m"]).loadsStarted = 1 ∧
    alookup "m" (runReg [RegEvent.construct 1 "m", RegEvent.construct 2 "m",
        RegEvent.resolve "m"]).loaded = some 1 ∧
    alookup "m" (stepReg (runReg [RegEvent.construct 1 "m",
        RegEvent.construct 2 "m", RegEvent.resolve "m"])
        (RegEvent.dispose 1)).loaded = none ∧
    "m" ∈ (stepReg (runReg [RegEvent.construct 1 "m", RegEvent.construct 2 "m",
        RegEvent.resolve "m"]) (RegEvent.dispose 1)).freed ∧
    alookup 2 (stepReg (runReg [RegEvent.construct 1 "m",
        RegEvent.construct 2 "m", RegEvent.resolve "m"])
        (RegEvent.dispose 1)).tiles = some ⟨"m", true, false⟩ := by
  decide

/-- C3: when `dispose()` runs while the asset load of the tile is still in
flight, the later resolution of the load nevertheless attaches the cloned
model to the disposed tile and installs the registry entry with
`refCount = 1`, which no one ever releases — the opposite of the claimed
never-attach-and-release behaviour. -/
theorem c3_load_after_dispose_attaches_and_leaks :
    alookup 1 (runReg [RegEvent.construct 1 "m", RegEvent.dispose 1,
        RegEvent.resolve "m"]).tiles = some ⟨"m", true, true⟩ ∧
    alookup "m" (runReg [RegEvent.construct 1 "m", RegEvent.dispose 1,
        RegEvent.resolve "m"]).loaded = some 1 ∧
    (runReg [RegEvent.construct 1 "m", RegEvent.dispose 1,
        RegEvent.resolve "m"]).freed = [] := by
  decide

/-- C4 counterexample: after the load of model `m` fails, a subsequent
acquisition of `m` does not retry the load — `loadsStarted` stays at `1`,
the stale rejected promise is still cached, and the new caller attaches
nothing; the first caller was rejected as well. -/
theorem c4_subsequent_acquire_does_not_retry :
    (runReg [RegEvent.construct 1 "m", RegEvent.fail "m",
        RegEvent.construct 2 "m"]).loadsStarted = 1 ∧
    alookup "m" (runReg [RegEvent.construct 1 "m", RegEvent.fail "m",
        RegEvent.construct 2 "m"]).promises = some PromState.rejectedP ∧
    alookup "m" (runReg [RegEvent.construct 1 "m", RegEvent.fail "m",
        RegEvent.construct 2 "m"]).loaded = none ∧
    alookup 1 (runReg [RegEvent.construct 1 "m", RegEvent.fail "m",
        RegEvent.construct 2 "m"]).tiles = some ⟨"m", false, false⟩ ∧
    alookup 2 (runReg [RegEvent.construct 1 "m", RegEvent.fail "m",
        RegEvent.construct 2 "m"]).tiles = some ⟨"m", false, false⟩ := by
  decide

/-- C4 amended: when the pending load of model `m` fails, every joined
caller is rejected (no tile attaches anything: the tile map is untouched by
the failure) and the rejected promise stays cached, so a subsequent
acquisition of the same model joins the stale rejected promise — it starts
no new load and its caller is rejected rather than retried. -/
theorem c4_amended_failure_rejects_and_is_not_retried
    (s : RegState) (m : String) (ws : List Nat) (t2 : Nat)
    (hp : alookup m s.promises = some (PromState.pending ws))
    (hl : alookup m s.loaded = none) :
    (failLoad m s).tiles = s.tiles ∧
    (failLoad m s).loadsStarted = s.loadsStarted ∧
    alookup m (failLoad m s).promises = some PromState.rejectedP ∧
    (constructTile t2 m (failLoad m s)).loadsStarted = s.loadsStarted ∧
    alookup t2 (constructTile t2 m (failLoad m s)).tiles =
      some ⟨m, false, false⟩ := by
  have hfail : failLoad m s =
      { s with promises := aset m PromState.rejectedP s.promises } := by
    unfold failLoad
    rw [hp]
  rw [hfail]
  refine ⟨rfl, rfl, alookup_aset_self m PromState.rejectedP s.promises, ?_, ?_⟩
  · unfold constructTile
    simp [hl, alookup_aset_self]
  · unfold constructTile
    simp [hl, alookup_aset_self]

/-- C4 amended witness: the general statement applied to the state with one
pending acquisition of `"m"` and a second acquisition by tile 2. -/
theorem c4_amended_failure_witness :
    (failLoad "m" regOneAcquire).tiles = regOneAcquire.tiles ∧
    (failLoad "m" regOneAcquire).loadsStarted = regOneAcquire.loadsStarted ∧
    alookup "m" (failLoad "m" regOneAcquire).promises =
      some PromState.rejectedP ∧
    (constructTile 2 "m" (failLoad "m" regOneAcquire)).loadsStarted =
      regOneAcquire.loadsStarted ∧
    alookup 2 (constructTile 2 "m" (failLoad "m" regOneAcquire)).tiles =
      some ⟨"m", false, false⟩ :=
  c4_amended_failure_rejects_and_is_not_retried regOneAcquire "m" [1] 2
    (by decide) (by decide)

/-- C2 counterexample: from a focused level-2 world, pressing Ascend twice in
rapid succession (before the first gsap timeline completes) starts two
transitions — the second request is not rejected, so two transitions are in
flight at once. -/
theorem c2_double_ascend_starts_two_transitions :
    (requestAscend (requestAscend wC2)).transitionsStarted = 2 ∧
    (requestAscend (requestAscend wC2)).pendTrans =
      [Transition.ascend ⟨3, some ⟨1, 0⟩⟩, Transition.ascend ⟨3, some ⟨1, 0⟩⟩] := by
  decide

/-- C2 amended: there is no transition-in-flight gate.  A second
`requestDescend` in rapid succession is nevertheless a no-op — the first
press clears the focused tile, so repeating the press reproduces the same
state (hence exactly one descend transition starts, at most one per press
pair) — while a second `requestAscend` is not rejected (see the
counterexample). -/
theorem c2_amended_second_descend_noop (w : WorldState) :
    requestDescend (requestDescend w) = requestDescend w ∧
    (requestDescend w).transitionsStarted ≤ w.transitionsStarted + 1 := by
  constructor
  · exact requestDescend_of_none (requestDescend w)
      (requestDescend_focusedTile w) (requestDescend_infoBarOpen w)
  · unfold requestDescend
    cases hd : descendData w with
    | none => simp
    | some nmd =>
        unfold sceneStartDescend
        by_cases hc : w.cameraReady = true
        · cases hf : w.tiles.find? (fun t => decide (some t.coord = nmd.parentTile)) with
          | none => simp [hc, hf]
          | some t0 => simp [hc, hf]
        · simp [hc]

/-- C5: a descend request is honoured only when a focused tile exists and the
current level exceeds the minimum level 1; when honoured (focused tile
present in the current tiles, camera and overlay available), the new map
data carries `mapLevel = max(currentLevel - 1, 1)` and
`parentTile = the focused coordinate`, and completing the transition
disposes all current tiles, stores the decremented level, and resets the
player to the origin. -/
theorem c5_descend_validity_and_effect :
    (∀ w : WorldState,
        (requestDescend w).transitionsStarted ≠ w.transitionsStarted →
          w.focusedTile ≠ none ∧ 1 < w.mapLevel) ∧
    (∀ (w : WorldState) (ft sel : NavTile),
        w.focusedTile = some ft →
        w.tiles.find? (fun t => decide (t.coord = ft.coord)) = some sel →
        sel.mapLevel = w.mapLevel →
        1 < w.mapLevel →
        w.cameraReady = true →
        w.pendTrans = [] →
        (requestDescend w).pendTrans =
          [Transition.descend ⟨0, 0, max (w.mapLevel - 1) 1, some sel.coord⟩] ∧
        (completeTransition (requestDescend w)).tiles = [] ∧
        (completeTransition (requestDescend w)).mapLevel =
          max (w.mapLevel - 1) 1 ∧
        (completeTransition (requestDescend w)).playerCoord = ⟨0, 0⟩ ∧
        (completeTransition (requestDescend w)).focusedTile = none) := by
  constructor
  · intro w h
    unfold requestDescend at h
    cases hft : w.focusedTile with
    | none => exact absurd (by simp [descendData, hft]) h
    | some ft =>
        by_cases hl : 1 < w.mapLevel
        · exact ⟨by simp [hft], hl⟩
        · exact absurd (by simp [descendData, hft, hl]) h
  · intro w ft sel hf hfind hsel hlvl hcam hpend
    have hsc : sel.coord = ft.coord := by
      have := List.find?_some hfind
      simpa using this
    have hdd : descendData w =
        some ⟨0, 0, max (w.mapLevel - 1) 1, some sel.coord⟩ := by
      unfold descendData
      rw [hf]
      simp [hlvl, hfind, hsel]
    have hfind2 : w.tiles.find?
        (fun t => decide (t.coord = sel.coord)) = some sel := by
      have heq : (fun t : NavTile => decide (t.coord = sel.coord)) =
          (fun t : NavTile => decide (t.coord = ft.coord)) := by
        funext t
        rw [hsc]
      rw [heq, hfind]
    have hreq : requestDescend w =
        { w with focusedTile := none, infoBarOpen := false,
                 pendTrans := w.pendTrans ++
                   [Transition.descend ⟨0, 0, max (w.mapLevel - 1) 1, some sel.coord⟩],
                 transitionsStarted := w.transitionsStarted + 1 } := by
      unfold requestDescend sceneStartDescend
      rw [hdd]
      simp [hcam, hfind2]
    rw [hreq, hpend]
    simp [completeTransition]

/-- C5 witness: the general statement applied to the focused level-3 world
`wC5`, whose descend lands on level 2 with parent tile `(2, 1)`. -/
theorem c5_descend_witness :
    (requestDescend wC5).pendTrans =
      [Transition.descend ⟨0, 0, max (wC5.mapLevel - 1) 1, some (⟨2, 1⟩ : Coord)⟩] ∧
    (completeTransition (requestDescend wC5)).tiles = [] ∧
    (completeTransition (requestDescend wC5)).mapLevel =
      max (wC5.mapLevel - 1) 1 ∧
    (completeTransition (requestDescend wC5)).playerCoord = ⟨0, 0⟩ ∧
    (completeTransition (requestDescend wC5)).focusedTile = none :=
  c5_descend_validity_and_effect.2 wC5 ⟨⟨2, 1⟩, 3⟩ ⟨⟨2, 1⟩, 3⟩ rfl (by decide)
    rfl (by decide) rfl rfl

/-- C6 counterexample: from the focused level-2 world `wC6`, the ascend
handler builds `newMapData` with `parentTile = {q: 1, r: 0}` — the focused
coordinate, not `undefined` — and the completed transition repositions
the player on that parent coordinate. -/
theorem c6_ascend_parentTile_is_focused_coord :
    (requestAscend wC6).pendTrans = [Transition.ascend ⟨3, some ⟨1, 0⟩⟩] ∧
    (completeTransition (requestAscend wC6)).mapLevel = 3 ∧
    (completeTransition (requestAscend wC6)).playerCoord = ⟨1, 0⟩ := by
  decide

/-- C6 amended: after a completed ascend the stored level is
`min(currentLevel + 1, 4)` and the `parentTile` field of the new map data is
the focused coordinate (driving the camera refocus and the player
reposition); it is not cleared, and the focused tile itself is also left
untouched by the request. -/
theorem c6_amended_ascend_keeps_parentTile
    (w : WorldState) (ft sel : NavTile)
    (hf : w.focusedTile = some ft)
    (hfind : w.tiles.find? (fun t => decide (t.coord = ft.coord)) = some sel)
    (hlvl : w.mapLevel < 4)
    (hcam : w.cameraReady = true)
    (hpend : w.pendTrans = []) :
    (requestAscend w).pendTrans =
      [Transition.ascend ⟨min (w.mapLevel + 1) 4, some sel.coord⟩] ∧
    (requestAscend w).focusedTile = w.focusedTile ∧
    (completeTransition (requestAscend w)).mapLevel = min (w.mapLevel + 1) 4 ∧
    (completeTransition (requestAscend w)).tiles = [] ∧
    (completeTransition (requestAscend w)).playerCoord = sel.coord := by
  have had : ascendData w = some ⟨min (w.mapLevel + 1) 4, some sel.coord⟩ := by
    unfold ascendData
    rw [hf]
    simp [hlvl, hfind]
  have hreq : requestAscend w =
      { w with infoBarOpen := false,
               pendTrans := w.pendTrans ++
                 [Transition.ascend ⟨min (w.mapLevel + 1) 4, some sel.coord⟩],
               transitionsStarted := w.transitionsStarted + 1 } := by
    unfold requestAscend sceneStartAscend
    rw [had]
    simp [hcam]
  rw [hreq, hpend]
  simp [completeTransition]

/-- C6 amended witness: the general statement applied to the focused
level-2 world `wC6`. -/
theorem c6_amended_ascend_witness :
    (requestAscend wC6).pendTrans =
      [Transition.ascend ⟨min (wC6.mapLevel + 1) 4, some (⟨1, 0⟩ : Coord)⟩] ∧
    (requestAscend wC6).focusedTile = wC6.focusedTile ∧
    (completeTransition (requestAscend wC6)).mapLevel =
      min (wC6.mapLevel + 1) 4 ∧
    (completeTransition (requestAscend wC6)).tiles = [] ∧
    (completeTransition (requestAscend wC6)).playerCoord = ⟨1, 0⟩ :=
  c6_amended_ascend_keeps_parentTile wC6 ⟨⟨1, 0⟩, 2⟩ ⟨⟨1, 0⟩, 2⟩ rfl
    (by decide) (by decide) rfl rfl

/-- C7: over navigation contexts whose level is at least the minimum level 1
(the data-model range), an ascend request only ever fires when
`currentLevel < 4`; at the maximum level 4 (and at any level above it) the
request is a no-op: no transition starts and the level, tiles, focus,
player and queued transitions are all unchanged. -/
theorem c7_ascend_rejected_at_max_level (w : WorldState)
    (hmin : 1 ≤ w.mapLevel) :
    ((requestAscend w).transitionsStarted ≠ w.transitionsStarted →
      1 ≤ w.mapLevel ∧ w.mapLevel < 4) ∧
    (4 ≤ w.mapLevel →
      (requestAscend w).mapLevel = w.mapLevel ∧
      (requestAscend w).tiles = w.tiles ∧
      (requestAscend w).focusedTile = w.focusedTile ∧
      (requestAscend w).playerCoord = w.playerCoord ∧
      (requestAscend w).pendTrans = w.pendTrans ∧
      (requestAscend w).transitionsStarted = w.transitionsStarted) := by
  constructor
  · intro h
    refine ⟨hmin, ?_⟩
    by_contra hl
    apply h
    unfold requestAscend
    cases hft : w.focusedTile with
    | none => simp [ascendData, hft]
    | some ft => simp [ascendData, hft, hl]
  · intro h4
    have hl : ¬(w.mapLevel < 4) := by omega
    have had : ascendData w = none := by
      unfold ascendData
      cases hft : w.focusedTile with
      | none => rfl
      | some ft => simp [hl]
    unfold requestAscend
    rw [had]
    simp

/-- C7 witness: at the maximum level 4 with a focused tile present, the
ascend request changes nothing in the navigation context. -/
theorem c7_ascend_rejected_witness :
    (requestAscend wC7).mapLevel = wC7.mapLevel ∧
    (requestAscend wC7).tiles = wC7.tiles ∧
    (requestAscend wC7).focusedTile = wC7.focusedTile ∧
    (requestAscend wC7).playerCoord = wC7.playerCoord ∧
    (requestAscend wC7).pendTrans = wC7.pendTrans ∧
    (requestAscend wC7).transitionsStarted = wC7.transitionsStarted :=
  (c7_ascend_rejected_at_max_level wC7 (by decide)).2 (by decide)

/-- C10 counterexample: in the state `sC10` there are no tiles, so a click
anywhere lands on no tile; yet the click handler returns early and the
leftover focused tile stays focused — the focus state is not cleared. -/
theorem c10_click_on_no_tile_keeps_focus :
    handleClick sC10 ⟨100, 0, 100⟩ = sC10 ∧
    (handleClick sC10 ⟨100, 0, 100⟩).focusedTile = some tC10 := by
  decide

/-- C10 amended: a pick miss cannot occur: `findNearestTile` has no distance
threshold, so with a nonempty tile list every non-drag click focuses the
nearest tile (the clear-focus branch is unreachable), and with an empty
tile list the handler returns early, leaving the focus state unchanged. -/
theorem c10_amended_no_pick_miss (s : ClickState) (point : Vec3)
    (hdrag : s.isDragging = false) (hcam : s.cameraReady = true) :
    (s.tiles = [] → handleClick s point = s) ∧
    (s.tiles ≠ [] →
      (findNearestTile point s.tiles).isSome = true ∧
      (handleClick s point).focusedTile = findNearestTile point s.tiles) := by
  constructor
  · intro h
    unfold handleClick
    rw [if_pos (Or.inr (Or.inr h))]
  · intro h
    have hs := findNearestTile_isSome point s.tiles h
    refine ⟨hs, ?_⟩
    obtain ⟨t2, ht2⟩ := Option.isSome_iff_exists.mp hs
    unfold handleClick
    rw [if_neg (by simp [hdrag, hcam, h]), ht2]

/-- C10 amended witness: the single-tile state `sW10`: the click far from
the tile still focuses it. -/
theorem c10_amended_no_pick_miss_witness :
    (findNearestTile ⟨9, 9, 9⟩ sW10.tiles).isSome = true ∧
    (handleClick sW10 ⟨9, 9, 9⟩).focusedTile =
      findNearestTile ⟨9, 9, 9⟩ sW10.tiles :=
  (c10_amended_no_pick_miss sW10 ⟨9, 9, 9⟩ rfl rfl).2 (by decide)

end HexGame
